import Mathlib

/-!
Verification of the scenario-mcp-server job-orchestration core
(`src/server.js`): the provider client's response handling
(`scenarioRequest`), the polling loop (`waitForJob`), the per-tool
submit → poll → resolve pipelines (`txt2img`, `img2img`,
`remove_background`, `upscale`), the numeric parameter clamping in the
tool handlers, and the session-routing layer of the `/mcp` endpoint.

The JavaScript is embedded shallowly: exceptions become `Except`,
the provider is an explicit environment of pure functions (poll
schedule, asset fetches, submission), JS numbers for the clamped knobs
become `ℚ`, and wall-clock time is an explicit counter advanced by the
request durations and by the fixed 2000 ms sleep between polls.
-/

namespace ScenarioMcp

/-- A job as returned by `GET /jobs/{jobId}`: `result.job` with its
`status` string and `metadata.assetIds` list. -/
structure Job where
  status : String
  assetIds : List String
deriving DecidableEq, Repr

/-- The errors thrown by `src/server.js`:
`Scenario API error ${status}: ${body}` from `scenarioRequest`,
`Job failed: ${job}` and `Job timed out after ${maxWaitMs}ms` from
`waitForJob`.  Each constructor carries exactly the data interpolated
into the thrown message. -/
inductive JsError where
  | providerError (statusCode : Nat) (rawBody : String)
  | jobFailed (job : Job)
  | jobTimedOut (maxWaitMs : Nat)
deriving DecidableEq, Repr

instance {ε α : Type} [DecidableEq ε] [DecidableEq α] : DecidableEq (Except ε α) := fun a b =>
  match a, b with
  | .ok x, .ok y => decidable_of_iff (x = y) (by simp)
  | .ok _, .error _ => .isFalse (by simp)
  | .error _, .ok _ => .isFalse (by simp)
  | .error x, .error y => decidable_of_iff (x = y) (by simp)

/-- What one run of `waitForJob` produces: its result (the terminal job
or the thrown error), how many `GET /jobs/{jobId}` requests it issued,
and the value of `Date.now() - startTime` at the return/throw point. -/
structure PollOutcome where
  result : Except JsError Job
  pollsMade : Nat
  elapsedMs : Nat
deriving DecidableEq, Repr

/-- The `while (Date.now() - startTime < maxWaitMs)` loop of
`waitForJob` (src/server.js:61-72).  `now` is `Date.now() - startTime`;
`polls j` is the job returned by the `j`-th remaining status query and
`reqMs j` how long that request takes; the recursive call shifts both
schedules and advances the clock by the request duration plus the fixed
2000 ms sleep. -/
def waitGo (polls : Nat → Job) (reqMs : Nat → Nat) (maxWaitMs : Nat) (now : Nat) :
    PollOutcome :=
  if h : now < maxWaitMs then
    let j := polls 0
    let t := now + reqMs 0
    if j.status = "success" then
      ⟨.ok j, 1, t⟩
    else if j.status = "failed" then
      ⟨.error (.jobFailed j), 1, t⟩
    else
      let rest := waitGo (fun n => polls (n + 1)) (fun n => reqMs (n + 1)) maxWaitMs (t + 2000)
      ⟨rest.result, rest.pollsMade + 1, rest.elapsedMs⟩
  else
    ⟨.error (.jobTimedOut maxWaitMs), 0, now⟩
termination_by maxWaitMs - now
decreasing_by omega

/-- `waitForJob(jobId, maxWaitMs = 120000)` (src/server.js:58-75),
with the job id abstracted away: the status queries are given by the
`polls` schedule. -/
def waitForJob (polls : Nat → Job) (reqMs : Nat → Nat) (maxWaitMs : Nat := 120000) :
    PollOutcome :=
  waitGo polls reqMs maxWaitMs 0

/-- Clock value (relative to the loop start) at which the `k`-th status
query's loop check happens: each earlier iteration took its request
duration plus the 2000 ms sleep. -/
def pollStart (reqMs : Nat → Nat) : Nat → Nat
  | 0 => 0
  | k + 1 => reqMs 0 + 2000 + pollStart (fun n => reqMs (n + 1)) k

/-- A polled job status that keeps the loop going: neither `success`
nor `failed`. -/
def nonterminal (j : Job) : Prop :=
  j.status ≠ "success" ∧ j.status ≠ "failed"

instance (j : Job) : Decidable (nonterminal j) := by
  unfold nonterminal; infer_instance

/-! ## Provider client (`scenarioRequest`, src/server.js:31-53) -/

/-- One settled `fetch` response: its HTTP status, the text of its body
(`response.text()`), and its parsed JSON body (`response.json()`). -/
structure HttpResponse (α : Type) where
  status : Nat
  rawBody : String
  jsonBody : α

/-- The response handling of `scenarioRequest` (src/server.js:47-52):
`response.ok` means the status is in 200..299; a non-ok response throws
`Scenario API error ${status}: ${body}`, an ok response yields the
parsed JSON body.  The source performs exactly one `fetch` per call, so
the model is a function of a single response. -/
def scenarioRequest {α : Type} (resp : HttpResponse α) : Except JsError α :=
  if 200 ≤ resp.status ∧ resp.status < 300 then
    .ok resp.jsonBody
  else
    .error (.providerError resp.status resp.rawBody)

/-! ## Result resolution (the asset loops of `txt2img` and `img2img`) -/

/-- The fields of `result.asset` that the tools read from
`GET /assets/{assetId}`: `asset.url` and the optional
`asset.properties?.width` / `asset.properties?.height`. -/
structure AssetInfo where
  url : String
  width : Option Nat
  height : Option Nat
deriving DecidableEq, Repr

/-- One element pushed by the `txt2img` asset loop
(src/server.js:174-179): `{id, url, width, height}`. -/
structure AssetOut where
  id : String
  url : String
  width : Option Nat
  height : Option Nat
deriving DecidableEq, Repr

/-- One element pushed by the `img2img` asset loop
(src/server.js:224-227): `{id, url}`. -/
structure AssetOutSimple where
  id : String
  url : String
deriving DecidableEq, Repr

/-- The `for (const assetId of assetIds)` loop of `txt2img`
(src/server.js:172-180): fetch each asset in order, pushing
`{id, url, width, height}`; the first fetch that throws aborts the
whole handler, discarding the partial `assets` array. -/
def resolveAssets (fetch : String → Except JsError AssetInfo) :
    List String → Except JsError (List AssetOut)
  | [] => .ok []
  | id :: rest =>
    match fetch id with
    | .error e => .error e
    | .ok a =>
      match resolveAssets fetch rest with
      | .error e => .error e
      | .ok tail => .ok ({ id := id, url := a.url, width := a.width, height := a.height } :: tail)

/-- The `for (const assetId of job.metadata.assetIds)` loop of
`img2img` (src/server.js:222-228), which pushes only `{id, url}`. -/
def resolveAssetsSimple (fetch : String → Except JsError AssetInfo) :
    List String → Except JsError (List AssetOutSimple)
  | [] => .ok []
  | id :: rest =>
    match fetch id with
    | .error e => .error e
    | .ok a =>
      match resolveAssetsSimple fetch rest with
      | .error e => .error e
      | .ok tail => .ok ({ id := id, url := a.url } :: tail)

/-! ## Request bodies and parameter clamping (src/server.js:150-157,
210-216, 349-353).  JS numbers for the clamped knobs are modelled as
`ℚ`; `Math.min` / `Math.max` become `min` / `max`. -/

/-- The body submitted by `txt2img` (src/server.js:151-161). -/
structure Txt2ImgBody where
  modelId : String
  prompt : String
  numSamples : ℚ
  width : ℚ
  height : ℚ
  negativePrompt : Option String

/-- Body construction of `txt2img`:
`numSamples: Math.min(4, Math.max(1, numSamples))`; `negativePrompt`
is attached only when supplied. -/
def txt2imgBody (prompt modelId : String) (numSamples width height : ℚ)
    (negativePrompt : Option String) : Txt2ImgBody :=
  { modelId, prompt, numSamples := min 4 (max 1 numSamples), width, height, negativePrompt }

/-- The body submitted by `img2img` (src/server.js:211-216). -/
structure Img2ImgBody where
  modelId : String
  prompt : String
  image : String
  strength : ℚ

/-- Body construction of `img2img`:
`strength: Math.min(1.0, Math.max(0.0, strength))`. -/
def img2imgBody (prompt imageUrl modelId : String) (strength : ℚ) : Img2ImgBody :=
  { modelId, prompt, image := imageUrl, strength := min 1 (max 0 strength) }

/-- The body submitted by `remove_background` (src/server.js:313). -/
structure RemoveBgBody where
  assetId : String

/-- The body submitted by `upscale` (src/server.js:350-353). -/
structure UpscaleBody where
  assetId : String
  scalingFactor : ℚ

/-- Body construction of `upscale`:
`scalingFactor: scalingFactor === 4 ? 4 : 2`. -/
def upscaleBody (assetId : String) (scalingFactor : ℚ) : UpscaleBody :=
  { assetId, scalingFactor := if scalingFactor = 4 then 4 else 2 }

/-! ## The tool pipelines (submit → poll → resolve) -/

/-- One submission request: the endpoint and body of the initial
`scenarioRequest('POST', ...)` of each tool. -/
inductive SubmitReq where
  | txt2img (body : Txt2ImgBody)
  | img2img (body : Img2ImgBody)
  | removeBackground (body : RemoveBgBody)
  | upscale (body : UpscaleBody)

/-- The provider, as seen by one tool invocation: the submission call
(returning `result.job.jobId`), the status-query schedule for the
submitted job together with each query's duration, and the asset
fetches. -/
structure ProviderEnv where
  submit : SubmitReq → Except JsError String
  pollJob : Nat → Job
  pollMs : Nat → Nat
  fetchAsset : String → Except JsError AssetInfo

/-- The `txt2img` tool handler (src/server.js:150-185): clamp and build
the body, submit, `waitForJob` with the default 120000 ms deadline,
then resolve every id of `job.metadata.assetIds` in order. -/
def txt2img (env : ProviderEnv) (prompt : String) (modelId : String := "flux.1-pro")
    (numSamples : ℚ := 1) (width : ℚ := 1024) (height : ℚ := 1024)
    (negativePrompt : Option String := none) : Except JsError (List AssetOut) := do
  let body := txt2imgBody prompt modelId numSamples width height negativePrompt
  let _jobId ← env.submit (.txt2img body)
  let job ← (waitForJob env.pollJob env.pollMs).result
  resolveAssets env.fetchAsset job.assetIds

/-- The `img2img` tool handler (src/server.js:210-233). -/
def img2img (env : ProviderEnv) (prompt imageUrl : String)
    (modelId : String := "flux.1-pro") (strength : ℚ := 0.75) :
    Except JsError (List AssetOutSimple) := do
  let body := img2imgBody prompt imageUrl modelId strength
  let _jobId ← env.submit (.img2img body)
  let job ← (waitForJob env.pollJob env.pollMs).result
  resolveAssetsSimple env.fetchAsset job.assetIds

/-- The result shape of `remove_background` (src/server.js:321-331):
`{success: true, originalAssetId, newAssetId, url}`. -/
structure RemoveBgResult where
  success : Bool
  originalAssetId : String
  newAssetId : String
  url : String
deriving DecidableEq, Repr

/-- The `remove_background` tool handler (src/server.js:312-332):
submit, wait with the default deadline, then fetch only
`job.metadata.assetIds[0]`.  Indexing an empty JS array gives
`undefined`, which the template literal renders as the path segment
`undefined`; hence `getD 0 "undefined"`. -/
def remove_background (env : ProviderEnv) (assetId : String) :
    Except JsError RemoveBgResult := do
  let _jobId ← env.submit (.removeBackground { assetId })
  let job ← (waitForJob env.pollJob env.pollMs).result
  let newAssetId := job.assetIds.getD 0 "undefined"
  let a ← env.fetchAsset newAssetId
  pure { success := true, originalAssetId := assetId, newAssetId, url := a.url }

/-- The result shape of `upscale` (src/server.js:361-372). -/
structure UpscaleResult where
  success : Bool
  originalAssetId : String
  newAssetId : String
  url : String
  width : Option Nat
  height : Option Nat
deriving DecidableEq, Repr

/-- The `upscale` tool handler (src/server.js:349-374): the
destructuring default `scalingFactor = 2` is modelled by
`Option.getD 2`; the deadline is the overridden 180000 ms; like
`remove_background` it fetches only `job.metadata.assetIds[0]`. -/
def upscale (env : ProviderEnv) (assetId : String) (scalingFactor : Option ℚ) :
    Except JsError UpscaleResult := do
  let body := upscaleBody assetId (scalingFactor.getD 2)
  let _jobId ← env.submit (.upscale body)
  let job ← (waitForJob env.pollJob env.pollMs 180000).result
  let newAssetId := job.assetIds.getD 0 "undefined"
  let a ← env.fetchAsset newAssetId
  pure { success := true, originalAssetId := assetId, newAssetId, url := a.url,
         width := a.width, height := a.height }

/-! ## Session routing (the `/mcp` endpoint, src/server.js:383-419) -/

/-- The mutable routing state: the `sessions` map (newest binding
first, as lookups see the latest `Map.set`), the identity that the next
created transport object will get, and the index of the next id drawn
from the generator. -/
structure SessionTable where
  table : List (String × Nat)
  nextTransport : Nat
  nextId : Nat

/-- `sessions.get(req.headers['mcp-session-id'])`: an absent header is
`undefined`, and `Map.get(undefined)` misses. -/
def getSession (table : List (String × Nat)) (sid : Option String) : Option Nat :=
  match sid with
  | none => none
  | some s => (table.find? fun p => p.1 == s).map Prod.snd

/-- One request against the `/mcp` route (src/server.js:391-409): if the
carried session id is registered, reuse that transport; otherwise create
a new transport.  Per the transport library's contract (spec §6), the
new transport draws one fresh id from `sessionIdGenerator` (modelled by
the injective supply `gen`) and invokes `onsessioninitialized` exactly
once, which runs `sessions.set(id, transport)`. -/
def handleMcp (gen : Nat → String) (st : SessionTable) (sid : Option String) :
    Nat × SessionTable :=
  match getSession st.table sid with
  | some t => (t, st)
  | none =>
    let t := st.nextTransport
    let newId := gen st.nextId
    (t, { table := (newId, t) :: st.table, nextTransport := st.nextTransport + 1,
          nextId := st.nextId + 1 })

/-- Router well-formedness: no session id is registered twice, and
every registered id was drawn from the generator at an index already
consumed. -/
def SessionTable.WF (gen : Nat → String) (st : SessionTable) : Prop :=
  (st.table.map Prod.fst).Nodup ∧ ∀ p ∈ st.table, ∃ i, i < st.nextId ∧ p.1 = gen i

/-! ## Concrete inputs used by witnesses and counterexamples -/

/-- A job that stays `running` forever. -/
def c2polls : Nat → Job := fun _ => ⟨"running", []⟩

/-- Status sequence `pending, pending, success` with one output. -/
def c3polls : Nat → Job := fun j =>
  if j < 2 then ⟨"pending", []⟩ else ⟨"success", ["a1"]⟩

/-- Status sequence `pending, failed, ...`. -/
def c4polls : Nat → Job := fun j =>
  if j < 1 then ⟨"pending", []⟩ else ⟨"failed", []⟩

/-- Asset store holding `a`, `b`, `c`. -/
def cFetchAll : String → Except JsError AssetInfo := fun id =>
  if id = "a" then .ok ⟨"https://x/a.png", some 512, some 512⟩
  else if id = "b" then .ok ⟨"https://x/b.png", none, none⟩
  else if id = "c" then .ok ⟨"https://x/c.png", some 64, none⟩
  else .error (.providerError 404 "not found")

/-- Asset store where fetching `b` fails. -/
def cFetchBad : String → Except JsError AssetInfo := fun id =>
  if id = "b" then .error (.providerError 500 "boom")
  else .ok ⟨"https://x/ok.png", none, none⟩

/-- Environment whose job succeeds at the first poll with two output
ids, of which only the first is fetchable. -/
def c1cEnv : ProviderEnv where
  submit := fun _ => .ok "j1"
  pollJob := fun _ => ⟨"success", ["a1", "a2"]⟩
  pollMs := fun _ => 0
  fetchAsset := fun id =>
    if id = "a1" then .ok ⟨"https://x/a1.png", none, none⟩
    else .error (.providerError 404 "not found")

/-- Environment matching the spec's end-to-end scenario: poll sequence
`pending, pending, success` with `outputIds = ["a1"]` and a resolvable
`a1`. -/
def c1wEnv : ProviderEnv where
  submit := fun _ => .ok "j1"
  pollJob := c3polls
  pollMs := fun _ => 0
  fetchAsset := fun id =>
    if id = "a1" then .ok ⟨"https://x/a1.png", some 1024, some 1024⟩
    else .error (.providerError 404 "not found")

/-- A provider response with status 404 and body `not found`. -/
def resp404 : HttpResponse Unit := ⟨404, "not found", ()⟩

/-- An injective session-id supply. -/
def genA (i : Nat) : String := String.mk (List.replicate i 'a')

/-- The empty routing state at process start. -/
def st0 : SessionTable := ⟨[], 0, 0⟩

theorem waitGo_success_at (k : Nat) (polls : Nat → Job) (reqMs : Nat → Nat) (maxW now : Nat)
    (hpre : ∀ j, j < k → nonterminal (polls j))
    (hs : (polls k).status = "success")
    (ht : now + pollStart reqMs k < maxW) :
    waitGo polls reqMs maxW now =
      ⟨.ok (polls k), k + 1, now + pollStart reqMs k + reqMs k⟩ := by
  induction k generalizing polls reqMs now with
  | zero =>
      simp only [pollStart] at ht ⊢
      rw [waitGo]
      simp [show now < maxW by omega, hs]
  | succ k ih =>
      have h0 := hpre 0 (by omega)
      simp only [pollStart] at ht ⊢
      have ihh := ih (fun n => polls (n + 1)) (fun n => reqMs (n + 1))
        (now + reqMs 0 + 2000) (fun j hj => hpre (j + 1) (by omega)) hs (by omega)
      rw [waitGo]
      simp [show now < maxW by omega, h0.1, h0.2, ihh]
      omega

theorem waitGo_failed_at (k : Nat) (polls : Nat → Job) (reqMs : Nat → Nat) (maxW now : Nat)
    (hpre : ∀ j, j < k → nonterminal (polls j))
    (hf : (polls k).status = "failed")
    (ht : now + pollStart reqMs k < maxW) :
    waitGo polls reqMs maxW now =
      ⟨.error (.jobFailed (polls k)), k + 1, now + pollStart reqMs k + reqMs k⟩ := by
  induction k generalizing polls reqMs now with
  | zero =>
      simp only [pollStart] at ht ⊢
      rw [waitGo]
      simp [show now < maxW by omega, hf]
  | succ k ih =>
      have h0 := hpre 0 (by omega)
      simp only [pollStart] at ht ⊢
      have ihh := ih (fun n => polls (n + 1)) (fun n => reqMs (n + 1))
        (now + reqMs 0 + 2000) (fun j hj => hpre (j + 1) (by omega)) hf (by omega)
      rw [waitGo]
      simp [show now < maxW by omega, h0.1, h0.2, ihh]
      omega

theorem waitGo_timeout (fuel : Nat) (polls : Nat → Job) (reqMs : Nat → Nat) (maxW now : Nat)
    (hfuel : maxW - now ≤ fuel)
    (hnt : ∀ j, now + pollStart reqMs j < maxW → nonterminal (polls j)) :
    (waitGo polls reqMs maxW now).result = .error (.jobTimedOut maxW) ∧
    maxW ≤ (waitGo polls reqMs maxW now).elapsedMs := by
  induction fuel generalizing polls reqMs now with
  | zero =>
      rw [waitGo]
      simp [show ¬ now < maxW by omega]
      omega
  | succ fuel ih =>
      by_cases hlt : now < maxW
      · have h0 : nonterminal (polls 0) := hnt 0 (by simpa [pollStart] using hlt)
        have ihh := ih (fun n => polls (n + 1)) (fun n => reqMs (n + 1))
          (now + reqMs 0 + 2000) (by omega)
          (fun j hj => hnt (j + 1) (by simp only [pollStart]; omega))
        rw [waitGo]
        simpa [hlt, h0.1, h0.2] using ihh
      · rw [waitGo]
        simp [hlt]
        omega

/-- C2 counterexample: with deadline 1000 ms and a job that stays
`running` (each status query instantaneous), `waitForJob` times out with
an error payload of 1000 — the configured deadline — while the measured
elapsed waiting time at the throw is 2000 ms.  The error therefore does
not carry the elapsed waiting time. -/
theorem waitForJob_c2_counterexample :
    waitForJob c2polls (fun _ => 0) 1000 =
      ⟨.error (.jobTimedOut 1000), 1, 2000⟩ ∧ (1000 : Nat) ≠ 2000 := by
  constructor
  · simp [waitForJob, waitGo, c2polls]
  · decide

/-- C2 (amended): for every deadline `d > 0` and every job whose polled
statuses are never terminal while the deadline has not elapsed,
`waitForJob` fails with a timeout error that carries the configured
deadline `d` itself (not the measured elapsed time), and the elapsed
waiting time at the moment of failure is ≥ `d`. -/
theorem waitForJob_timeout_c2 (polls : Nat → Job) (reqMs : Nat → Nat) (d : Nat)
    (hd : 0 < d)
    (hnt : ∀ j, pollStart reqMs j < d → nonterminal (polls j)) :
    (waitForJob polls reqMs d).result = .error (.jobTimedOut d) ∧
    d ≤ (waitForJob polls reqMs d).elapsedMs :=
  waitGo_timeout d polls reqMs d 0 (by omega) (fun j hj => hnt j (by omega))

/-- Witness for C2: the always-`running` job with deadline 1000 ms. -/
theorem waitForJob_timeout_c2_witness :
    (waitForJob c2polls (fun _ => 0) 1000).result = .error (.jobTimedOut 1000) ∧
    1000 ≤ (waitForJob c2polls (fun _ => 0) 1000).elapsedMs :=
  waitForJob_timeout_c2 c2polls (fun _ => 0) 1000 (by decide)
    (fun j _ => by simp [c2polls, nonterminal])

/-- C3: for every job whose polled status sequence reaches `success` at
the `k`-th query, with every earlier status non-terminal and the
deadline not yet elapsed at the `k`-th loop check, `waitForJob` returns
that terminal job and makes exactly `k + 1` status queries — none after
the one that observed `success`. -/
theorem waitForJob_success_c3 (polls : Nat → Job) (reqMs : Nat → Nat) (maxW k : Nat)
    (hpre : ∀ j, j < k → nonterminal (polls j))
    (hs : (polls k).status = "success")
    (ht : pollStart reqMs k < maxW) :
    (waitForJob polls reqMs maxW).result = .ok (polls k) ∧
    (waitForJob polls reqMs maxW).pollsMade = k + 1 := by
  rw [waitForJob, waitGo_success_at k polls reqMs maxW 0 hpre hs (by omega)]
  exact ⟨rfl, rfl⟩

/-- Witness for C3: statuses `pending, pending, success` under the
default 120000 ms deadline — the job is returned after exactly three
queries. -/
theorem waitForJob_success_c3_witness :
    (waitForJob c3polls (fun _ => 0) 120000).result = .ok ⟨"success", ["a1"]⟩ ∧
    (waitForJob c3polls (fun _ => 0) 120000).pollsMade = 3 := by
  have h := waitForJob_success_c3 c3polls (fun _ => 0) 120000 2
    (by decide) (by decide) (by decide)
  simpa [c3polls] using h

/-- C4: for every job whose polled status sequence reaches `failed` at
the `k`-th query (earlier statuses non-terminal, deadline not yet
elapsed there), `waitForJob` fails immediately upon observing that
status with a job-failed error carrying the full job payload, making
exactly `k + 1` queries — no retry, regardless of the remaining
deadline budget. -/
theorem waitForJob_failed_c4 (polls : Nat → Job) (reqMs : Nat → Nat) (maxW k : Nat)
    (hpre : ∀ j, j < k → nonterminal (polls j))
    (hf : (polls k).status = "failed")
    (ht : pollStart reqMs k < maxW) :
    (waitForJob polls reqMs maxW).result = .error (.jobFailed (polls k)) ∧
    (waitForJob polls reqMs maxW).pollsMade = k + 1 := by
  rw [waitForJob, waitGo_failed_at k polls reqMs maxW 0 hpre hf (by omega)]
  exact ⟨rfl, rfl⟩

/-- Witness for C4: statuses `pending, failed` under the default
120000 ms deadline — the loop stops at the second query with almost the
whole budget remaining. -/
theorem waitForJob_failed_c4_witness :
    (waitForJob c4polls (fun _ => 0) 120000).result = .error (.jobFailed ⟨"failed", []⟩) ∧
    (waitForJob c4polls (fun _ => 0) 120000).pollsMade = 2 := by
  have h := waitForJob_failed_c4 c4polls (fun _ => 0) 120000 1
    (by decide) (by decide) (by decide)
  simpa [c4polls] using h

theorem except_bind_ok {ε α β : Type} (a : α) (f : α → Except ε β) :
    (Except.ok a : Except ε α) >>= f = f a := rfl

theorem except_pure_eq {ε α : Type} (a : α) :
    (pure a : Except ε α) = Except.ok a := rfl

theorem resolveAssets_ok (fetch : String → Except JsError AssetInfo) (ids : List String)
    (h : ∀ id ∈ ids, ∃ a, fetch id = .ok a) :
    ∃ outs, resolveAssets fetch ids = .ok outs ∧ outs.map AssetOut.id = ids ∧
      ∀ o ∈ outs, fetch o.id = .ok ⟨o.url, o.width, o.height⟩ := by
  induction ids with
  | nil => exact ⟨[], rfl, rfl, by simp⟩
  | cons id rest ih =>
      obtain ⟨a, ha⟩ := h id (by simp)
      obtain ⟨tail, htail, hmap, hfe⟩ := ih (fun i hi => h i (by simp [hi]))
      refine ⟨{ id := id, url := a.url, width := a.width, height := a.height } :: tail,
        ?_, ?_, ?_⟩
      · simp [resolveAssets, ha, htail]
      · simp [hmap]
      · intro o ho
        rcases List.mem_cons.1 ho with h1 | h2
        · subst h1; exact ha
        · exact hfe o h2

theorem resolveAssetsSimple_ok (fetch : String → Except JsError AssetInfo)
    (ids : List String) (h : ∀ id ∈ ids, ∃ a, fetch id = .ok a) :
    ∃ outs, resolveAssetsSimple fetch ids = .ok outs ∧
      outs.map AssetOutSimple.id = ids ∧
      ∀ o ∈ outs, ∃ a, fetch o.id = .ok a ∧ o.url = a.url := by
  induction ids with
  | nil => exact ⟨[], rfl, rfl, by simp⟩
  | cons id rest ih =>
      obtain ⟨a, ha⟩ := h id (by simp)
      obtain ⟨tail, htail, hmap, hfe⟩ := ih (fun i hi => h i (by simp [hi]))
      refine ⟨{ id := id, url := a.url } :: tail, ?_, ?_, ?_⟩
      · simp [resolveAssetsSimple, ha, htail]
      · simp [hmap]
      · intro o ho
        rcases List.mem_cons.1 ho with h1 | h2
        · subst h1; exact ⟨a, ha, rfl⟩
        · exact hfe o h2

theorem resolveAssets_err (fetch : String → Except JsError AssetInfo) (ids : List String)
    (id : String) (hid : id ∈ ids) (e : JsError) (he : fetch id = .error e) :
    ∃ e2, resolveAssets fetch ids = .error e2 := by
  induction ids with
  | nil => simp at hid
  | cons x rest ih =>
      rcases List.mem_cons.1 hid with h1 | h2
      · subst h1
        exact ⟨e, by simp [resolveAssets, he]⟩
      · cases hx : fetch x with
        | error e3 => exact ⟨e3, by simp [resolveAssets, hx]⟩
        | ok a =>
            obtain ⟨e2, h2e⟩ := ih h2
            exact ⟨e2, by simp [resolveAssets, hx, h2e]⟩

/-- C5: for every ordered sequence of output ids whose individual
fetches all succeed, the resolution loop fetches each id's full
descriptor and returns the descriptors in exactly the input order of
the id sequence — the returned list projects back to the id sequence,
and each element carries the fields of its fetched asset. -/
theorem resolveAssets_order_c5 (fetch : String → Except JsError AssetInfo)
    (ids : List String) (h : ∀ id ∈ ids, ∃ a, fetch id = .ok a) :
    ∃ outs, resolveAssets fetch ids = .ok outs ∧ outs.map AssetOut.id = ids ∧
      ∀ o ∈ outs, fetch o.id = .ok ⟨o.url, o.width, o.height⟩ :=
  resolveAssets_ok fetch ids h

/-- Witness for C5: resolving `["a", "b", "c"]` against a store holding
all three. -/
theorem resolveAssets_order_c5_witness :
    ∃ outs, resolveAssets cFetchAll ["a", "b", "c"] = .ok outs ∧
      outs.map AssetOut.id = ["a", "b", "c"] ∧
      ∀ o ∈ outs, cFetchAll o.id = .ok ⟨o.url, o.width, o.height⟩ :=
  resolveAssets_order_c5 cFetchAll ["a", "b", "c"] (by
    intro id hid
    rcases (by simpa using hid : id = "a" ∨ id = "b" ∨ id = "c") with h | h | h <;>
      subst h <;> exact ⟨_, rfl⟩)

/-- C6: if any single descriptor fetch in a resolution batch fails, the
entire resolution fails — the loop yields an error and never an `ok`
list, so no partial descriptor list reaches the caller. -/
theorem resolveAssets_fail_c6 (fetch : String → Except JsError AssetInfo)
    (ids : List String) (id : String) (hid : id ∈ ids) (e : JsError)
    (he : fetch id = .error e) :
    (∃ e2, resolveAssets fetch ids = .error e2) ∧
    ∀ outs, resolveAssets fetch ids ≠ .ok outs := by
  obtain ⟨e2, h2⟩ := resolveAssets_err fetch ids id hid e he
  exact ⟨⟨e2, h2⟩, fun outs hok => by rw [h2] at hok; exact Except.noConfusion hok⟩

/-- Witness for C6: the fetch of `b` fails inside `["a", "b", "c"]`,
so the whole batch resolves to an error. -/
theorem resolveAssets_fail_c6_witness :
    (∃ e2, resolveAssets cFetchBad ["a", "b", "c"] = .error e2) ∧
    ∀ outs, resolveAssets cFetchBad ["a", "b", "c"] ≠ .ok outs :=
  resolveAssets_fail_c6 cFetchBad ["a", "b", "c"] "b" (by simp)
    (.providerError 500 "boom") (by simp [cFetchBad])

/-- C7: the numeric knobs are clamped during body construction, before
the submission call, for every input: `txt2img`'s `numSamples` lands in
`[1, 4]` (with 7 submitted as 4 and 0 as 1), `img2img`'s `strength`
lands in `[0, 1]`, and `upscale`'s `scalingFactor` is always submitted
as 2 or 4. -/
theorem clamping_c7 :
    (∀ (p m : String) (n w h : ℚ) (np : Option String),
        1 ≤ (txt2imgBody p m n w h np).numSamples ∧
        (txt2imgBody p m n w h np).numSamples ≤ 4) ∧
    (txt2imgBody "p" "m" 7 1024 1024 none).numSamples = 4 ∧
    (txt2imgBody "p" "m" 0 1024 1024 none).numSamples = 1 ∧
    (∀ (p i m : String) (s : ℚ),
        0 ≤ (img2imgBody p i m s).strength ∧ (img2imgBody p i m s).strength ≤ 1) ∧
    (∀ (a : String) (f : ℚ),
        (upscaleBody a f).scalingFactor = 2 ∨ (upscaleBody a f).scalingFactor = 4) := by
  refine ⟨fun p m n w h np => ⟨?_, ?_⟩, ?_, ?_, fun p i m s => ⟨?_, ?_⟩, fun a f => ?_⟩
  · exact le_min (by norm_num) (le_max_left 1 n)
  · exact min_le_left 4 (max 1 n)
  · norm_num [txt2imgBody]
  · norm_num [txt2imgBody]
  · exact le_min (by norm_num) (le_max_left 0 s)
  · exact min_le_left 1 (max 0 s)
  · by_cases h4 : f = 4 <;> simp [upscaleBody, h4]

/-- C8: for every settled response, the provider client returns the
parsed JSON body on any 2xx status, and on any non-2xx status fails
with an error carrying the response status code and the raw response
body.  The source issues exactly one `fetch` per call, so the model is
a function of a single response and retries are impossible. -/
theorem scenarioRequest_c8 {α : Type} (resp : HttpResponse α) :
    (200 ≤ resp.status ∧ resp.status < 300 → scenarioRequest resp = .ok resp.jsonBody) ∧
    (¬(200 ≤ resp.status ∧ resp.status < 300) →
      scenarioRequest resp = .error (.providerError resp.status resp.rawBody)) := by
  constructor <;> intro h <;> simp [scenarioRequest, h]

/-- Witness for C8: status 404 with body `not found` surfaces as a
provider error carrying exactly those. -/
theorem scenarioRequest_c8_witness :
    scenarioRequest resp404 = .error (.providerError 404 "not found") :=
  (scenarioRequest_c8 resp404).2 (by decide)

/-- C10: for every numeric `scalingFactor` input to `upscale`, the
submitted body's `scalingFactor` equals 4 exactly when the input is 4
and equals 2 for every other value; an omitted input (destructuring
default 2) is submitted as 2. -/
theorem upscale_scaling_c10 (a : String) (f : ℚ) :
    ((f = 4 → (upscaleBody a ((some f).getD 2)).scalingFactor = 4) ∧
     (f ≠ 4 → (upscaleBody a ((some f).getD 2)).scalingFactor = 2)) ∧
    (upscaleBody a ((none : Option ℚ).getD 2)).scalingFactor = 2 := by
  refine ⟨⟨fun h => ?_, fun h => ?_⟩, ?_⟩
  · simp [upscaleBody, h]
  · simp [upscaleBody, h]
  · norm_num [upscaleBody]

/-- Witness for C10: input 4 is submitted as 4 and input 3 as 2. -/
theorem upscale_scaling_c10_witness :
    (upscaleBody "A" ((some (4 : ℚ)).getD 2)).scalingFactor = 4 ∧
    (upscaleBody "A" ((some (3 : ℚ)).getD 2)).scalingFactor = 2 :=
  ⟨(upscale_scaling_c10 "A" 4).1.1 rfl,
   (upscale_scaling_c10 "A" 3).1.2 (by norm_num)⟩

/-- C1 counterexample: the job submitted by `remove_background`
completes with `status = success` and two output ids `["a1", "a2"]`, of
which `a2` is not even fetchable — yet the operation succeeds, having
resolved only `assetIds[0]` and returned a single descriptor.  It does
not resolve all outputIds and does not return one descriptor per id. -/
theorem orchestration_c1_counterexample :
    remove_background c1cEnv "orig" =
      .ok ⟨true, "orig", "a1", "https://x/a1.png"⟩ ∧
    (c1cEnv.pollJob 0).status = "success" ∧
    (c1cEnv.pollJob 0).assetIds = ["a1", "a2"] ∧
    c1cEnv.fetchAsset "a2" = .error (.providerError 404 "not found") := by
  refine ⟨?_, rfl, rfl, by simp [c1cEnv]⟩
  simp [remove_background, c1cEnv, waitForJob, waitGo, except_bind_ok, except_pure_eq]

/-- C1 (amended): when the submitted job completes with `success`
before the deadline and every listed output is fetchable, `txt2img` and
`img2img` resolve all the ids of the terminal job's
`metadata.assetIds`, returning one descriptor per output id in
`assetIds` order; `remove_background` and `upscale` instead resolve
only the first output id `assetIds[0]` and return a single descriptor
for it. -/
theorem orchestration_c1 (env : ProviderEnv) (k : Nat)
    (hsub : ∀ r, ∃ s, env.submit r = .ok s)
    (hpre : ∀ j, j < k → nonterminal (env.pollJob j))
    (hs : (env.pollJob k).status = "success")
    (ht : pollStart env.pollMs k < 120000)
    (hne : (env.pollJob k).assetIds ≠ [])
    (hfetch : ∀ id ∈ (env.pollJob k).assetIds, ∃ a, env.fetchAsset id = .ok a) :
    (∀ (p m : String) (n w h : ℚ) (np : Option String),
        ∃ outs, txt2img env p m n w h np = .ok outs ∧
          outs.map AssetOut.id = (env.pollJob k).assetIds) ∧
    (∀ (p i m : String) (s : ℚ),
        ∃ outs, img2img env p i m s = .ok outs ∧
          outs.map AssetOutSimple.id = (env.pollJob k).assetIds) ∧
    (∀ a : String, ∃ r, remove_background env a = .ok r ∧
        r.newAssetId = (env.pollJob k).assetIds.getD 0 "undefined") ∧
    (∀ (a : String) (sf : Option ℚ), ∃ r, upscale env a sf = .ok r ∧
        r.newAssetId = (env.pollJob k).assetIds.getD 0 "undefined") := by
  have hw := waitGo_success_at k env.pollJob env.pollMs 120000 0 hpre hs (by omega)
  have hw180 := waitGo_success_at k env.pollJob env.pollMs 180000 0 hpre hs (by omega)
  have hmem : (env.pollJob k).assetIds.getD 0 "undefined" ∈ (env.pollJob k).assetIds := by
    cases hcase : (env.pollJob k).assetIds with
    | nil => exact absurd hcase hne
    | cons x xs => simp [hcase]
  refine ⟨?_, ?_, ?_, ?_⟩
  · intro p m n w h np
    obtain ⟨s0, hs0⟩ := hsub (.txt2img (txt2imgBody p m n w h np))
    obtain ⟨outs, hok, hmap, _⟩ :=
      resolveAssets_ok env.fetchAsset (env.pollJob k).assetIds hfetch
    exact ⟨outs, by simp [txt2img, hs0, waitForJob, hw, hok, except_bind_ok], hmap⟩
  · intro p i m s
    obtain ⟨s0, hs0⟩ := hsub (.img2img (img2imgBody p i m s))
    obtain ⟨outs, hok, hmap, _⟩ :=
      resolveAssetsSimple_ok env.fetchAsset (env.pollJob k).assetIds hfetch
    exact ⟨outs, by simp [img2img, hs0, waitForJob, hw, hok, except_bind_ok], hmap⟩
  · intro a
    obtain ⟨s0, hs0⟩ := hsub (.removeBackground ⟨a⟩)
    obtain ⟨ai, hai⟩ := hfetch _ hmem
    simp only [List.getD_eq_getElem?_getD] at hai
    refine ⟨⟨true, a, (env.pollJob k).assetIds.getD 0 "undefined", ai.url⟩, ?_, rfl⟩
    simp [remove_background, hs0, waitForJob, hw, hai, except_bind_ok]
  · intro a sf
    obtain ⟨s0, hs0⟩ := hsub (.upscale (upscaleBody a (sf.getD 2)))
    obtain ⟨ai, hai⟩ := hfetch _ hmem
    simp only [List.getD_eq_getElem?_getD] at hai
    refine ⟨⟨true, a, (env.pollJob k).assetIds.getD 0 "undefined", ai.url,
      ai.width, ai.height⟩, ?_, rfl⟩
    simp [upscale, hs0, waitForJob, hw180, hai, except_bind_ok]

/-- Witness for C1: the spec's end-to-end scenario — poll sequence
`pending, pending, success` with `outputIds = ["a1"]` — run through
`txt2img`. -/
theorem orchestration_c1_witness :
    ∃ outs, txt2img c1wEnv "p" "flux.1-pro" 1 1024 1024 none = .ok outs ∧
      outs.map AssetOut.id = (c1wEnv.pollJob 2).assetIds :=
  (orchestration_c1 c1wEnv 2
      (fun _ => ⟨"j1", rfl⟩)
      (by decide)
      (by decide)
      (by decide)
      (by decide)
      (by intro id hid
          have hida : id = "a1" := by simpa [c1wEnv, c3polls] using hid
          subst hida
          exact ⟨⟨"https://x/a1.png", some 1024, some 1024⟩, by simp [c1wEnv]⟩)).1
    "p" "flux.1-pro" 1 1024 1024 none

theorem find_mem_nodup (table : List (String × Nat))
    (hnd : (table.map Prod.fst).Nodup) (s : String) (t : Nat)
    (hm : (s, t) ∈ table) :
    table.find? (fun p => p.1 == s) = some (s, t) := by
  induction table with
  | nil => simp at hm
  | cons x rest ih =>
      simp only [List.map_cons, List.nodup_cons] at hnd
      rcases List.mem_cons.1 hm with h1 | h2
      · subst h1
        exact List.find?_cons_of_pos _ (by simp)
      · by_cases hx : x.1 = s
        · exact absurd (hx ▸ List.mem_map.2 ⟨(s, t), h2, rfl⟩) hnd.1
        · rw [List.find?_cons_of_neg _ (by simp [hx])]
          exact ih hnd.2 h2

theorem fresh_not_mem (gen : Nat → String) (hgen : Function.Injective gen)
    (st : SessionTable) (hwf : st.WF gen) :
    gen st.nextId ∉ st.table.map Prod.fst := by
  intro hmm
  obtain ⟨p, hp, hp1⟩ := List.mem_map.1 hmm
  obtain ⟨i, hi, hpi⟩ := hwf.2 p hp
  have : i = st.nextId := hgen (by rw [← hpi, hp1])
  omega

theorem wf_insert (gen : Nat → String) (hgen : Function.Injective gen)
    (st : SessionTable) (hwf : st.WF gen) :
    SessionTable.WF gen
      ⟨(gen st.nextId, st.nextTransport) :: st.table,
        st.nextTransport + 1, st.nextId + 1⟩ := by
  constructor
  · exact List.nodup_cons.2 ⟨fresh_not_mem gen hgen st hwf, hwf.1⟩
  · intro p hp
    rcases List.mem_cons.1 hp with h1 | h2
    · exact ⟨st.nextId, by show st.nextId < st.nextId + 1; omega, by rw [h1]⟩
    · obtain ⟨i, hi, hpi⟩ := hwf.2 p h2
      exact ⟨i, by show i < st.nextId + 1; omega, hpi⟩

/-- C9: under a collision-free id generator and a well-formed routing
table, the `/mcp` route returns the already-registered transport
unchanged for a request whose session id is in the table; for a request
with no (or an unknown) session id it creates a new transport
registered under a freshly generated id, preserving well-formedness —
in particular at most one transport per session id; and two consecutive
session-creating requests receive distinct transports and distinct
generated ids, with the resulting table still having one transport per
id. -/
theorem sessionRouter_c9 (gen : Nat → String) (hgen : Function.Injective gen)
    (st : SessionTable) (hwf : st.WF gen) :
    (∀ s t, (s, t) ∈ st.table → handleMcp gen st (some s) = (t, st)) ∧
    (∀ sid, getSession st.table sid = none →
      (handleMcp gen st sid).1 = st.nextTransport ∧
      (gen st.nextId, st.nextTransport) ∈ (handleMcp gen st sid).2.table ∧
      (handleMcp gen st sid).2.WF gen) ∧
    ((handleMcp gen st none).1 ≠ (handleMcp gen (handleMcp gen st none).2 none).1 ∧
     gen st.nextId ≠ gen (handleMcp gen st none).2.nextId ∧
     ((handleMcp gen (handleMcp gen st none).2 none).2.table.map Prod.fst).Nodup) := by
  have hstep : ∀ sid, getSession st.table sid = none →
      handleMcp gen st sid =
        (st.nextTransport,
          ⟨(gen st.nextId, st.nextTransport) :: st.table,
            st.nextTransport + 1, st.nextId + 1⟩) := by
    intro sid hnone
    simp [handleMcp, hnone]
  refine ⟨?_, ?_, ?_⟩
  · intro s t hm
    have hfind : getSession st.table (some s) = some t := by
      simp [getSession, find_mem_nodup st.table hwf.1 s t hm]
    simp [handleMcp, hfind]
  · intro sid hnone
    rw [hstep sid hnone]
    exact ⟨rfl, List.mem_cons_self _ _, wf_insert gen hgen st hwf⟩
  · have h1 := hstep none rfl
    have hwf1 := wf_insert gen hgen st hwf
    have h2 := (by
      simp [handleMcp, getSession] :
      handleMcp gen
          (⟨(gen st.nextId, st.nextTransport) :: st.table,
            st.nextTransport + 1, st.nextId + 1⟩ : SessionTable) none =
        (st.nextTransport + 1,
          ⟨(gen (st.nextId + 1), st.nextTransport + 1) ::
              (gen st.nextId, st.nextTransport) :: st.table,
            st.nextTransport + 2, st.nextId + 2⟩))
    have hwf2 := wf_insert gen hgen _ hwf1
    rw [h1, h2]
    refine ⟨by show st.nextTransport ≠ st.nextTransport + 1; omega,
      fun h => absurd (hgen h) (by show st.nextId ≠ st.nextId + 1; omega), ?_⟩
    simpa using hwf2.1

/-- Witness for C9: starting from the empty routing table with the
injective supply `genA`, two session-creating requests get distinct
transports and distinct ids, and the table keys stay duplicate-free. -/
theorem sessionRouter_c9_witness :
    (handleMcp genA st0 none).1 ≠ (handleMcp genA (handleMcp genA st0 none).2 none).1 ∧
    genA st0.nextId ≠ genA (handleMcp genA st0 none).2.nextId ∧
    ((handleMcp genA (handleMcp genA st0 none).2 none).2.table.map Prod.fst).Nodup :=
  (sessionRouter_c9 genA
      (fun i j h => by
        have hl := congrArg (fun s => s.data.length) h
        simpa [genA] using hl)
      st0 ⟨by simp [st0], by simp [st0]⟩).2.2

end ScenarioMcp
